import Mathlib

set_option autoImplicit false

/-!
Shallow embedding of the multi-model orchestration core of the SuiSage app:
the model registry, chain catalogue, backend invocation, the orchestration
engine (`AIService` in `src/services/aiService.ts`), and the training-data
store and statistics aggregator (`src/services/trainingDataService.ts`).

Backend network calls are modelled as oracles `String → Except String String`
taking the prompt actually sent and returning either the answer text
(`Except.ok`) or a thrown error message (`Except.error`).  The wall clock
(`Date.now()`) is modelled as a fixed natural number `now`; JS objects used
as string-keyed maps are modelled as association lists in insertion order.
-/

namespace SuiSage

/-- Model descriptor (`AIModel` in trainingDataService.ts). -/
structure AIModel where
  id : String
  name : String
  enabled : Bool
  capabilities : List String
  priority : Option Nat
deriving Repr, DecidableEq, Inhabited

/-- `AI_MODELS` registry, as an insertion-ordered key/value list
(`Object.keys` order: `openai`, then `gemini`). -/
def AI_MODELS : List (String × AIModel) :=
  [ ("openai", { id := "openai", name := "OpenAI GPT", enabled := true,
                 capabilities := ["chat", "analysis", "voice-compatible"], priority := some 1 }),
    ("gemini", { id := "gemini", name := "Google Gemini", enabled := true,
                 capabilities := ["chat", "analysis", "fast-response"], priority := some 2 }) ]

/-- `ChatMode` union type. -/
inductive ChatMode where
  | parallel
  | chain
  | universal
deriving Repr, DecidableEq, Inhabited

/-- `ChainConfig` record. -/
structure ChainConfig where
  models : List String
  name : String
  description : Option String
deriving Repr, DecidableEq, Inhabited

/-- `CHAIN_CONFIGS` chain catalogue (ordered; the Nth chain is addressed as
`chain_N`). -/
def CHAIN_CONFIGS : List ChainConfig :=
  [ { models := ["openai", "gemini"], name := "OpenAI → Gemini",
      description := some "Deep analysis followed by practical insights" },
    { models := ["gemini", "openai"], name := "Gemini → OpenAI",
      description := some "Quick overview followed by detailed analysis" } ]

/-- `ModelResponse` record.  `metadata` is flattened to the only field the
orchestration engine ever writes (`processingTime`). -/
structure ModelResponse where
  modelId : String
  content : String
  timestamp : Nat
  processingTime : Option Nat
deriving Repr, DecidableEq, Inhabited

/-- `ChainStep` record. -/
structure ChainStep where
  stepIndex : Nat
  modelId : String
  prompt : String
  response : ModelResponse
  enhancedPrompt : Option String
deriving Repr, DecidableEq, Inhabited

/-- The `{ steps, finalModelId, totalProcessingTime }` chain-data shape. -/
structure ChainData where
  steps : List ChainStep
  finalModelId : String
  totalProcessingTime : Nat
deriving Repr, DecidableEq, Inhabited

/-- `ChatMessage` record from aiService.ts.  `sender` is the stringly-typed
model id or synthetic chain id. -/
structure ChatMessage where
  id : String
  text : String
  sender : String
  timestamp : Nat
  sessionId : Option String
deriving Repr, DecidableEq, Inhabited

/-- `Asset` record from suiService.ts. -/
structure Asset where
  coinType : String
  balance : Int
  symbol : String
deriving Repr, DecidableEq, Inhabited

/-- `Transaction` record from suiService.ts (fields the core reads). -/
structure Transaction where
  digest : String
  timestamp : Nat
  sender : String
  gasUsed : Nat
  success : Bool
  kind : String
deriving Repr, DecidableEq, Inhabited

/-- `WalletData` record from suiService.ts.  Numeric amounts are JS numbers;
the core only copies them, so they are modelled as integers. -/
structure WalletData where
  address : String
  balance : Int
  assets : List Asset
  transactions : List Transaction
deriving Repr, DecidableEq, Inhabited

/-- JS object key lookup on an insertion-ordered association list
(`obj[key]`, `undefined` becomes `none`). -/
def jsGet {α : Type} (l : List (String × α)) (k : String) : Option α :=
  match l with
  | [] => none
  | (k2, v) :: rest => if k2 = k then some v else jsGet rest k

/-- JS object key assignment `obj[key] = v`: overwrite in place if the key
exists, otherwise append (insertion order preserved). -/
def jsSet {α : Type} (l : List (String × α)) (k : String) (v : α) : List (String × α) :=
  match l with
  | [] => [(k, v)]
  | (k2, v2) :: rest => if k2 = k then (k, v) :: rest else (k2, v2) :: jsSet rest k v

/-- One chain entry of the `chainResponses` map. -/
structure ChainBundle where
  chainConfig : ChainConfig
  responses : List (String × ModelResponse)
  chainData : ChainData
deriving Repr, DecidableEq, Inhabited

/-- `ComparisonSession` record. -/
structure ComparisonSession where
  id : String
  timestamp : Nat
  question : String
  walletData : Option WalletData
  chatMode : ChatMode
  chainConfig : Option ChainConfig
  responses : List (String × ModelResponse)
  chainData : Option ChainData
  chainResponses : Option (List (String × ChainBundle))
  selectedOption : Option String
deriving Repr, DecidableEq, Inhabited

/-- `TrainingDataEntry` record (the persisted projection; the interface
declares the same `chainResponses` field as the session). -/
structure TrainingDataEntry where
  id : String
  timestamp : Nat
  question : String
  walletData : Option WalletData
  chatMode : ChatMode
  chainConfig : Option ChainConfig
  responses : List (String × ModelResponse)
  chainData : Option ChainData
  chainResponses : Option (List (String × ChainBundle))
  selectedOption : Option String
deriving Repr, DecidableEq, Inhabited

/-! ## AIService: provider registry and backend invocation -/

/-- The credential state of the `AIService` singleton: the two API keys read
from the environment at construction (`null` when absent). -/
structure AIState where
  openaiApiKey : Option String
  geminiApiKey : Option String
deriving Repr, DecidableEq, Inhabited

/-- A backend network oracle: prompt in, answer text or thrown error out. -/
def Oracle : Type := String → Except String String

/-- `AIProvider` record. -/
structure Provider where
  name : String
  id : String
  enabled : Bool
deriving Repr, DecidableEq, Inhabited

/-- `AIService.getAvailableProviders`: fixed two-provider list, `enabled`
is key truthiness (`!!this.openaiApiKey`). -/
def getAvailableProviders (st : AIState) : List Provider :=
  [ { name := "OpenAI GPT", id := "openai", enabled := st.openaiApiKey.isSome },
    { name := "Google Gemini", id := "gemini", enabled := st.geminiApiKey.isSome } ]

/-- `AIService.askOpenAI`: throws when the key is absent, otherwise performs
the network round-trip (oracle). -/
def askOpenAI (st : AIState) (oO : Oracle) (prompt : String) : Except String String :=
  match st.openaiApiKey with
  | none => .error "OpenAI API key not configured"
  | some _ => oO prompt

/-- `AIService.askGemini`: throws when the key is absent, otherwise performs
the network round-trip (oracle). -/
def askGemini (st : AIState) (oG : Oracle) (prompt : String) : Except String String :=
  match st.geminiApiKey with
  | none => .error "Gemini API key not configured"
  | some _ => oG prompt

/-- The per-provider user-enablement flags passed by the UI
(`enabledProviders` argument of `askMultipleAIs`). -/
structure EnabledProviders where
  openai : Bool
  gemini : Bool
deriving Repr, DecidableEq, Inhabited

/-- `enabledProviders[provider.id]` lookup (provider ids are only ever
`openai` or `gemini`). -/
def EnabledProviders.get (ep : EnabledProviders) (id : String) : Bool :=
  if id = "openai" then ep.openai else if id = "gemini" then ep.gemini else false

/-- The filter predicate of `askMultipleAIs`: with a caller-supplied filter,
include a provider when it is credential-enabled and filter-enabled;
without one, include all credential-enabled providers. -/
def includeProvider (ep? : Option EnabledProviders) (p : Provider) : Bool :=
  match ep? with
  | some ep => p.enabled && ep.get p.id
  | none => p.enabled

/-- The eligible providers of one parallel-mode request with a
caller-supplied filter. -/
def eligibleProviders (st : AIState) (ep : EnabledProviders) : List Provider :=
  (getAvailableProviders st).filter (includeProvider (some ep))

/-- The try-block body of the per-provider task in `askMultipleAIs`:
dispatch on provider id and key truthiness, with the
not-configured placeholder as the fallback branch. -/
def providerAttempt (st : AIState) (oO oG : Oracle) (question : String) (p : Provider) :
    Except String String :=
  if p.id = "openai" ∧ st.openaiApiKey.isSome then askOpenAI st oO question
  else if p.id = "gemini" ∧ st.geminiApiKey.isSome then askGemini st oG question
  else .ok (p.name ++ " is not configured. Please add the API key.")

/-- The whole per-provider task of `askMultipleAIs`: the try-block result is
wrapped as a success message, a thrown error is caught and converted to an
in-band error message; both are tagged with the provider id as `sender`. -/
def askProviderMessage (st : AIState) (oO oG : Oracle) (question : String) (now : Nat)
    (p : Provider) : ChatMessage :=
  match providerAttempt st oO oG question p with
  | .ok r =>
      { id := p.id ++ "-" ++ toString now, text := r, sender := p.id,
        timestamp := now, sessionId := none }
  | .error e =>
      { id := p.id ++ "-error-" ++ toString now,
        text := p.name ++ " encountered an error: " ++ e,
        sender := p.id, timestamp := now, sessionId := none }

/-- `AIService.askMultipleAIs`: filter the provider list, run one task per
kept provider, collect all settled results in task order (every task
resolves, since its body catches its own errors). -/
def askMultipleAIs (st : AIState) (oO oG : Oracle) (question : String)
    (ep? : Option EnabledProviders) (now : Nat) : List ChatMessage :=
  ((getAvailableProviders st).filter (includeProvider ep?)).map
    (askProviderMessage st oO oG question now)

/-! ## AIService: chain execution -/

/-- `AI_MODELS[currentModelId]?.name || currentModelId`. -/
def modelNameOf (currentModelId : String) : String :=
  match jsGet AI_MODELS currentModelId with
  | some m => m.name
  | none => currentModelId

/-- Literal text of the chain prompt before the previous response. -/
def chainPromptP1 : String := "Previous AI Analysis:\n\""

/-- Literal text of the chain prompt between the previous response and the
original question. -/
def chainPromptP2 : String := "\"\n\nOriginal User Question: \""

/-- Literal text of the chain prompt between the original question and the
model name. -/
def chainPromptP3 : String := "\"\n\nAs "

/-- Literal text of the chain prompt after the model name. -/
def chainPromptP4 : String :=
  ", please:\n1. Review the previous analysis\n2. Provide additional insights, corrections, or alternative perspectives\n3. Build upon or refine the previous response\n4. Focus on what the previous analysis might have missed\n\nPlease provide a comprehensive response that enhances the overall analysis."

/-- `AIService.createChainPrompt`: the enhanced prompt embedding the previous
response, the original question and the review instruction. -/
def createChainPrompt (originalQuestion previousResponse currentModelId : String) : String :=
  chainPromptP1 ++ previousResponse ++ chainPromptP2 ++ originalQuestion ++
    chainPromptP3 ++ modelNameOf currentModelId ++ chainPromptP4

/-- One step's backend dispatch inside `executeAIChain`: call the model when
its key is truthy, otherwise throw the not-configured error. -/
def chainCallModel (st : AIState) (oO oG : Oracle) (modelId prompt : String) :
    Except String String :=
  if modelId = "openai" ∧ st.openaiApiKey.isSome then askOpenAI st oO prompt
  else if modelId = "gemini" ∧ st.geminiApiKey.isSome then askGemini st oG prompt
  else .error ("Model " ++ modelId ++ " not configured or not available")

/-- The enhanced-prompt computation at one step of `executeAIChain`:
`question` unless this is a non-first step with a truthy previous
response. -/
def chainStepPrompt (question : String) (i : Nat) (lastResponse modelId : String) : String :=
  if ¬ i = 0 ∧ ¬ lastResponse = "" then createChainPrompt question lastResponse modelId
  else question

/-- The sequential step loop of `executeAIChain`, from step index `i` with
previous response `lastResponse`, returning the steps produced from this
point on together with the final response text; a failing backend call
aborts the whole remainder with the chain-failed error. -/
def chainGo (st : AIState) (oO oG : Oracle) (question : String) (now : Nat) :
    List String → Nat → String → Except String (List ChainStep × String)
  | [], _, lastResponse => .ok ([], lastResponse)
  | modelId :: rest, i, lastResponse =>
    let enhancedPrompt := chainStepPrompt question i lastResponse modelId
    match chainCallModel st oO oG modelId enhancedPrompt with
    | .error e =>
        .error ("Chain failed at step " ++ toString (i + 1) ++ " (" ++ modelId ++ "): " ++ e)
    | .ok response =>
        let modelResponse : ModelResponse :=
          { modelId := modelId, content := response, timestamp := now,
            processingTime := some 0 }
        let step : ChainStep :=
          { stepIndex := i, modelId := modelId,
            prompt := if i = 0 then question else enhancedPrompt,
            response := modelResponse,
            enhancedPrompt := if i = 0 then none else some enhancedPrompt }
        match chainGo st oO oG question now rest (i + 1) response with
        | .error e => .error e
        | .ok (steps, final) => .ok (step :: steps, final)

/-- The `responses[modelId] = modelResponse` assignments accumulated over the
steps, in loop order. -/
def chainResponsesOf (steps : List ChainStep) : List (String × ModelResponse) :=
  steps.foldl (fun acc s => jsSet acc s.modelId s.response) []

/-- `ChainedResponse` record. -/
structure ChainedResponse where
  finalResponse : ChatMessage
  chainData : ChainData
  responses : List (String × ModelResponse)
deriving Repr, DecidableEq, Inhabited

/-- `config.models[config.models.length - 1]` (the final model id). -/
def finalModelOf (cfg : ChainConfig) : String :=
  cfg.models.getLastD "undefined"

/-- `AIService.executeAIChain`: run the sequential step loop; on success,
assemble the chained response (under the constant-clock model all measured
durations are zero). -/
def executeAIChain (st : AIState) (oO oG : Oracle) (question : String) (now : Nat)
    (cfg : ChainConfig) : Except String ChainedResponse :=
  match chainGo st oO oG question now cfg.models 0 "" with
  | .error e => .error e
  | .ok (steps, lastResponse) =>
      .ok { finalResponse :=
              { id := "chain-" ++ toString now, text := lastResponse,
                sender := finalModelOf cfg, timestamp := now, sessionId := none },
            chainData :=
              { steps := steps, finalModelId := finalModelOf cfg,
                totalProcessingTime := 0 },
            responses := chainResponsesOf steps }

/-- The per-chain try/catch inside `executeAllChains`: a rejected chain
becomes the error-shaped chained response (zero steps, zero processing
time, error text). -/
def runChainSafe (st : AIState) (oO oG : Oracle) (question : String) (now : Nat)
    (cfg : ChainConfig) : ChainedResponse :=
  match executeAIChain st oO oG question now cfg with
  | .ok r => r
  | .error e =>
      { finalResponse :=
          { id := "chain-error-" ++ toString now,
            text := "Chain \"" ++ cfg.name ++ "\" failed: " ++ e,
            sender := finalModelOf cfg, timestamp := now, sessionId := none },
        chainData :=
          { steps := [], finalModelId := finalModelOf cfg, totalProcessingTime := 0 },
        responses := [] }

/-- The `chainResult.finalResponse.sessionId = chain_index` tagging applied
when collecting the settled chain results. -/
def tagChainSession (r : ChainedResponse) (idx : Nat) : ChainedResponse :=
  { r with finalResponse := { r.finalResponse with sessionId := some ("chain_" ++ toString idx) } }

/-- `AIService.executeAllChains`: run every catalogued chain (each internally
sequential, each with its own catch), collect all settled results in
catalogue order and tag each with its synthetic chain id. -/
def executeAllChains (st : AIState) (oO oG : Oracle) (question : String) (now : Nat) :
    List ChainedResponse :=
  (List.range CHAIN_CONFIGS.length).map fun idx =>
    tagChainSession (runChainSafe st oO oG question now (CHAIN_CONFIGS.getD idx default)) idx

/-! ## Orchestration entry points -/

/-- The mode-shaped result of `processAIRequest`. -/
inductive ProcessResult where
  | parallelMsgs (msgs : List ChatMessage)
  | chainResults (rs : List ChainedResponse)
  | universalResults (msgs : List ChatMessage) (rs : List ChainedResponse)
deriving Repr, DecidableEq, Inhabited

/-- `AIService.processAIRequest`: dispatch on the chat mode (universal runs
both branches). -/
def processAIRequest (st : AIState) (oO oG : Oracle) (question : String)
    (chatMode : ChatMode) (ep? : Option EnabledProviders) (now : Nat) : ProcessResult :=
  match chatMode with
  | .parallel => .parallelMsgs (askMultipleAIs st oO oG question ep? now)
  | .chain => .chainResults (executeAllChains st oO oG question now)
  | .universal =>
      .universalResults (askMultipleAIs st oO oG question ep? now)
        (executeAllChains st oO oG question now)

/-- Outcome of the chat screen send handler: either the pre-flight
no-providers error message, or the engine result. -/
inductive SendOutcome where
  | noProviders (text : String)
  | ran (result : ProcessResult)
deriving Repr, DecidableEq, Inhabited

/-- The effective chat mode computed in `handleSendMessageWithText` from the
chain settings. -/
def effectiveChatMode (chainEnabled showChainComparison : Bool) : ChatMode :=
  if chainEnabled && showChainComparison then .universal
  else if chainEnabled then .chain
  else .parallel

/-- The orchestration-relevant fragment of
`handleSendMessageWithText` (chat.tsx): compute the effective provider
settings and chat mode, check for zero enabled providers before invoking
anything, and otherwise run `processAIRequest`.  (`availableProviders` is
the state set from `aiService.getAvailableProviders()`.) -/
def handleSendMessageWithText (st : AIState) (oO oG : Oracle) (question : String)
    (settings : EnabledProviders) (voiceEnabled chainEnabled showChainComparison : Bool)
    (now : Nat) : SendOutcome :=
  let effectiveSettings : EnabledProviders :=
    if voiceEnabled then { openai := true, gemini := false } else settings
  let mode := effectiveChatMode chainEnabled showChainComparison
  let enabledProviders :=
    (getAvailableProviders st).filter fun p => p.enabled && effectiveSettings.get p.id
  if enabledProviders.length = 0 then
    .noProviders
      (if voiceEnabled then
        "Voice mode requires OpenAI to be available. Please check your API configuration."
      else
        "No AI assistants are currently enabled. Please enable at least one AI provider in Settings.")
  else
    .ran (processAIRequest st oO oG question mode (some effectiveSettings) now)

/-! ## TrainingDataService: store, export, statistics -/

/-- `TrainingDataService.MAX_ENTRIES`. -/
def MAX_ENTRIES : Nat := 1000

/-- The projection performed by `saveComparisonData` when building the
persisted `TrainingDataEntry` from a `ComparisonSession`: the object
literal copies nine fields and omits `chainResponses` (an omitted field of
a JS object literal is `undefined`). -/
def saveComparisonDataEntry (s : ComparisonSession) : TrainingDataEntry :=
  { id := s.id, timestamp := s.timestamp, question := s.question,
    walletData := s.walletData, chatMode := s.chatMode, chainConfig := s.chainConfig,
    responses := s.responses, chainData := s.chainData,
    chainResponses := none,
    selectedOption := s.selectedOption }

/-- The store update of `saveComparisonData`:
`[trainingEntry, ...existingData].slice(0, MAX_ENTRIES)` (newest first). -/
def appendTrainingEntry (e : TrainingDataEntry) (store : List TrainingDataEntry) :
    List TrainingDataEntry :=
  (e :: store).take MAX_ENTRIES

/-- A sequence of appends, in chronological order. -/
def appendAll (es : List TrainingDataEntry) (store : List TrainingDataEntry) :
    List TrainingDataEntry :=
  es.foldl (fun acc e => appendTrainingEntry e acc) store

/-- The wallet-context projection of one export record. -/
structure ExportContext where
  balance : Int
  assets : Nat
  transactions : Nat
deriving Repr, DecidableEq, Inhabited

/-- One element of the exported JSON array. -/
structure ExportRecord where
  prompt : String
  context : Option ExportContext
  chatMode : ChatMode
  chainConfig : Option ChainConfig
  responses : List (String × ModelResponse)
  chainData : Option ChainData
  selected : Option String
  timestamp : Nat
deriving Repr, DecidableEq, Inhabited

/-- The per-entry projection inside `getTrainingDataForExport`. -/
def exportProject (e : TrainingDataEntry) : ExportRecord :=
  { prompt := e.question,
    context := match e.walletData with
      | some w => some { balance := w.balance, assets := w.assets.length,
                         transactions := w.transactions.length }
      | none => none,
    chatMode := e.chatMode, chainConfig := e.chainConfig, responses := e.responses,
    chainData := e.chainData, selected := e.selectedOption, timestamp := e.timestamp }

/-- `TrainingDataService.getTrainingDataForExport`: keep only entries with a
non-null `selectedOption`, project each (the JSON array element list). -/
def getTrainingDataForExport (data : List TrainingDataEntry) : List ExportRecord :=
  (data.filter fun e => e.selectedOption.isSome).map exportProject

/-- `ModelStats` record. -/
structure ModelStats where
  modelId : String
  totalSessions : Nat
  wins : Nat
deriving Repr, DecidableEq, Inhabited

/-- `ChainStats` record. -/
structure ChainStats where
  chainConfig : ChainConfig
  totalSessions : Nat
  wins : Nat
deriving Repr, DecidableEq, Inhabited

/-- The result shape of `getExtensibleStats`. -/
structure ExtensibleStats where
  totalSessions : Nat
  withSelections : Nat
  modelStats : List ModelStats
  chainStats : List ChainStats
  parallelSessions : Nat
  chainSessions : Nat
  universalSessions : Nat
deriving Repr, DecidableEq, Inhabited

/-- `entry.selectedOption !== null`. -/
def hasSelection (e : TrainingDataEntry) : Bool :=
  e.selectedOption.isSome

/-- The model-win filter predicate of `getExtensibleStats`. -/
def modelWinPred (modelId : String) (e : TrainingDataEntry) : Bool :=
  (e.chatMode == ChatMode.parallel || e.chatMode == ChatMode.universal)
    && e.selectedOption == some modelId

/-- `entry.responses[modelId] !== undefined`. -/
def modelParticipates (modelId : String) (e : TrainingDataEntry) : Bool :=
  (jsGet e.responses modelId).isSome

/-- The chain-win filter predicate of `getExtensibleStats`. -/
def chainWinPred (chainId : String) (e : TrainingDataEntry) : Bool :=
  (e.chatMode == ChatMode.chain || e.chatMode == ChatMode.universal)
    && e.selectedOption == some chainId

/-- `entry.chainConfig?.models.join(',') === config.models.join(',')`:
`undefined === string` is false when the entry has no chain config. -/
def chainConfigMatches (e : TrainingDataEntry) (cfg : ChainConfig) : Bool :=
  match e.chainConfig with
  | some c => String.intercalate "," c.models = String.intercalate "," cfg.models
  | none => false

/-- `entry.chainResponses && entry.chainResponses[chainId]` truthiness. -/
def hasChainResponse (e : TrainingDataEntry) (chainId : String) : Bool :=
  match e.chainResponses with
  | some m => (jsGet m chainId).isSome
  | none => false

/-- `TrainingDataService.getExtensibleStats` on a well-formed entry list
(the happy path of the try block). -/
def getExtensibleStats (data : List TrainingDataEntry) : ExtensibleStats :=
  let withSelections := data.filter hasSelection
  { totalSessions := data.length,
    withSelections := withSelections.length,
    modelStats := AI_MODELS.map fun kv =>
      { modelId := kv.1,
        totalSessions := (data.filter (modelParticipates kv.1)).length,
        wins := (withSelections.filter (modelWinPred kv.1)).length },
    chainStats := (List.range CHAIN_CONFIGS.length).map fun idx =>
      let cfg := CHAIN_CONFIGS.getD idx default
      let chainId := "chain_" ++ toString idx
      { chainConfig := cfg,
        totalSessions := (data.filter fun e =>
          chainConfigMatches e cfg || hasChainResponse e chainId).length,
        wins := (withSelections.filter (chainWinPred chainId)).length },
    parallelSessions := (data.filter fun e => e.chatMode = .parallel).length,
    chainSessions := (data.filter fun e => e.chatMode = .chain).length,
    universalSessions := (data.filter fun e => e.chatMode = .universal).length }

/-! ### Stored (possibly malformed) entries and the aggregation try/catch

Stored entries come back through `JSON.parse`, so a corrupt record can lack
the `responses` object entirely; reading `entry.responses[modelId]` on such
an entry throws a `TypeError`, which the single try/catch wrapped around the
whole of `getExtensibleStats` converts into the zeroed default stats
object. -/

/-- A stored entry as it comes back from the durable store: `responses` may
be absent (`none` models a record whose `responses` field is missing). -/
structure StoredEntry where
  id : String
  timestamp : Nat
  question : String
  chatMode : ChatMode
  chainConfig : Option ChainConfig
  responses : Option (List (String × ModelResponse))
  chainResponses : Option (List (String × ChainBundle))
  selectedOption : Option String
deriving Repr, DecidableEq, Inhabited

/-- Evaluate `entry.responses[modelId] !== undefined` on a stored entry:
throws when `responses` itself is absent. -/
def storedHasResponse (e : StoredEntry) (modelId : String) : Except String Bool :=
  match e.responses with
  | none => .error "TypeError: cannot read properties of undefined"
  | some rs => .ok ((jsGet rs modelId).isSome)

/-- Count the entries satisfying a fallible predicate, evaluating it left to
right and propagating the first thrown error (JS `Array.filter`). -/
def countFallible {α : Type} (p : α → Except String Bool) : List α → Except String Nat
  | [] => .ok 0
  | x :: xs =>
    match p x with
    | .error e => .error e
    | .ok b =>
      match countFallible p xs with
      | .error e => .error e
      | .ok n => .ok (if b then n + 1 else n)

/-- `chainConfigMatches` on a stored entry (reads only `chainConfig`; never
throws). -/
def storedChainConfigMatches (e : StoredEntry) (cfg : ChainConfig) : Bool :=
  match e.chainConfig with
  | some c => String.intercalate "," c.models = String.intercalate "," cfg.models
  | none => false

/-- `hasChainResponse` on a stored entry (`&&` short-circuits; never
throws). -/
def storedHasChainResponse (e : StoredEntry) (chainId : String) : Bool :=
  match e.chainResponses with
  | some m => (jsGet m chainId).isSome
  | none => false

/-- The model-stats loop of `getExtensibleStats` over stored entries, model
by model in registry order: the participation filter of the first model
that touches a corrupt entry throws. -/
def storedModelStatsGo (data withSelections : List StoredEntry) :
    List (String × AIModel) → Except String (List ModelStats)
  | [] => .ok []
  | kv :: rest =>
    match countFallible (fun e => storedHasResponse e kv.1) data with
    | .error e => .error e
    | .ok total =>
      match storedModelStatsGo data withSelections rest with
      | .error e => .error e
      | .ok tl =>
        .ok ({ modelId := kv.1,
               totalSessions := total,
               wins := (withSelections.filter fun e =>
                 (e.chatMode = .parallel ∨ e.chatMode = .universal) ∧
                   e.selectedOption = some kv.1).length } :: tl)

/-- The try-block body of `getExtensibleStats` over stored entries. -/
def storedStatsBody (data : List StoredEntry) : Except String ExtensibleStats :=
  let withSelections := data.filter fun e => e.selectedOption.isSome
  match storedModelStatsGo data withSelections AI_MODELS with
  | .error e => .error e
  | .ok modelStats =>
    .ok { totalSessions := data.length,
          withSelections := withSelections.length,
          modelStats := modelStats,
          chainStats := (List.range CHAIN_CONFIGS.length).map fun idx =>
            let cfg := CHAIN_CONFIGS.getD idx default
            let chainId := "chain_" ++ toString idx
            { chainConfig := cfg,
              totalSessions := (data.filter fun e =>
                storedChainConfigMatches e cfg || storedHasChainResponse e chainId).length,
              wins := (withSelections.filter fun e =>
                (e.chatMode = .chain ∨ e.chatMode = .universal) ∧
                  e.selectedOption = some chainId).length },
          parallelSessions := (data.filter fun e => e.chatMode = .parallel).length,
          chainSessions := (data.filter fun e => e.chatMode = .chain).length,
          universalSessions := (data.filter fun e => e.chatMode = .universal).length }

/-- The zeroed default returned by the catch branch of
`getExtensibleStats`. -/
def zeroStats : ExtensibleStats :=
  { totalSessions := 0, withSelections := 0, modelStats := [], chainStats := [],
    parallelSessions := 0, chainSessions := 0, universalSessions := 0 }

/-- `getExtensibleStats` over stored entries, with its surrounding
try/catch: any thrown error yields the zeroed default stats. -/
def storedGetExtensibleStats (data : List StoredEntry) : ExtensibleStats :=
  match storedStatsBody data with
  | .ok s => s
  | .error _ => zeroStats

/-! ## Concrete demo inputs for witnesses -/

/-- Fixed demo oracle answering every prompt with `alpha`. -/
def demoOracleA : Oracle := fun _ => .ok "alpha"

/-- Fixed demo oracle answering every prompt with `beta`. -/
def demoOracleB : Oracle := fun _ => .ok "beta"

/-- Demo credential state with both API keys present. -/
def demoKeysState : AIState := { openaiApiKey := some "sk-demo", geminiApiKey := some "gm-demo" }

/-- Demo user filter enabling both providers. -/
def demoEPBoth : EnabledProviders := { openai := true, gemini := true }

/-- The openai provider record as produced by `getAvailableProviders` when
the key is present. -/
def demoProviderO : Provider := { name := "OpenAI GPT", id := "openai", enabled := true }

/-- The concrete openai message produced in the demo run. -/
def demoParallelMsg : ChatMessage :=
  { id := "openai-0", text := "alpha", sender := "openai", timestamp := 0, sessionId := none }

/-- Demo credential state with no API keys. -/
def demoNoKeys : AIState := { openaiApiKey := none, geminiApiKey := none }

/-- A minimal demo model response. -/
def demoMR (mid content : String) : ModelResponse :=
  { modelId := mid, content := content, timestamp := 0, processingTime := none }

/-- A minimal demo training-data entry. -/
def demoEntry : TrainingDataEntry :=
  { id := "e0", timestamp := 0, question := "Q", walletData := none, chatMode := .parallel,
    chainConfig := none, responses := [("openai", demoMR "openai" "alpha")],
    chainData := none, chainResponses := none, selectedOption := some "openai" }

/-- A second demo training-data entry. -/
def demoEntry2 : TrainingDataEntry :=
  { demoEntry with id := "e1", selectedOption := none }

/-- `handleResponseSelection` (chat.tsx): overwrite the pending
`selectedOption` with the chosen sender string before saving. -/
def selectOption (s : ComparisonSession) (sel : String) : ComparisonSession :=
  { s with selectedOption := some sel }

/-- The chain bundle stored for `chain_0` in a chain-mode session. -/
def demoChainBundle0 : ChainBundle :=
  { chainConfig := CHAIN_CONFIGS.getD 0 default,
    responses := [("openai", demoMR "openai" "alpha"), ("gemini", demoMR "gemini" "beta")],
    chainData := { steps := [], finalModelId := "gemini", totalProcessingTime := 0 } }

/-- The chain bundle stored for `chain_1` in a chain-mode session. -/
def demoChainBundle1 : ChainBundle :=
  { chainConfig := CHAIN_CONFIGS.getD 1 default,
    responses := [("gemini", demoMR "gemini" "gamma"), ("openai", demoMR "openai" "delta")],
    chainData := { steps := [], finalModelId := "openai", totalProcessingTime := 0 } }

/-- A chain-mode comparison session as chat.tsx builds it: `responses` stays
the empty object and the chain results live in `chainResponses`. -/
def demoChainSession : ComparisonSession :=
  { id := "session-1", timestamp := 0, question := "Q", walletData := none,
    chatMode := .chain, chainConfig := none, responses := [], chainData := none,
    chainResponses := some [("chain_0", demoChainBundle0), ("chain_1", demoChainBundle1)],
    selectedOption := none }

/-- A demo chain run of the first catalogued chain with both keys present
and both oracles succeeding. -/
def demoChainRun : Except String ChainedResponse :=
  executeAIChain demoKeysState demoOracleA demoOracleB "Q" 0 (CHAIN_CONFIGS.getD 0 default)

/-- The successful result of the demo chain run. -/
def demoChainOk : ChainedResponse := demoChainRun.toOption.getD default

/-- A demo wallet snapshot. -/
def demoWallet : WalletData :=
  { address := "0xabc", balance := 5,
    assets := [{ coinType := "0x2::sui::SUI", balance := 5, symbol := "SUI" }],
    transactions := [{ digest := "d1", timestamp := 1, sender := "0xabc",
                       gasUsed := 10, success := true, kind := "transfer" }] }

/-- A demo entry carrying wallet context and a selection. -/
def demoSelEntry : TrainingDataEntry :=
  { demoEntry with id := "e2", walletData := some demoWallet }

/-- A well-formed stored entry: parallel mode, one response, openai
selected. -/
def demoGoodStored : StoredEntry :=
  { id := "g", timestamp := 0, question := "Q", chatMode := .parallel, chainConfig := none,
    responses := some [("openai", demoMR "openai" "alpha")], chainResponses := none,
    selectedOption := some "openai" }

/-- A corrupt stored entry whose `responses` field is missing entirely. -/
def demoCorruptStored : StoredEntry :=
  { id := "c", timestamp := 0, question := "Q", chatMode := .parallel, chainConfig := none,
    responses := none, chainResponses := none, selectedOption := none }

/-! ## Helper lemmas -/

/-- Every per-provider task is tagged with its provider id as sender. -/
theorem askProviderMessage_sender (st : AIState) (oO oG : Oracle) (q : String) (now : Nat)
    (p : Provider) : (askProviderMessage st oO oG q now p).sender = p.id := by
  cases h : providerAttempt st oO oG q p <;> simp [askProviderMessage, h]

/-- Every per-provider task yields either the try-block answer text or the
caught-error text. -/
theorem askProviderMessage_text (st : AIState) (oO oG : Oracle) (q : String) (now : Nat)
    (p : Provider) :
    (∃ ans, providerAttempt st oO oG q p = .ok ans ∧
        (askProviderMessage st oO oG q now p).text = ans) ∨
    (∃ e, providerAttempt st oO oG q p = .error e ∧
        (askProviderMessage st oO oG q now p).text
          = p.name ++ " encountered an error: " ++ e) := by
  cases h : providerAttempt st oO oG q p with
  | error e => exact Or.inr ⟨e, rfl, by simp [askProviderMessage, h]⟩
  | ok ans => exact Or.inl ⟨ans, rfl, by simp [askProviderMessage, h]⟩

/-! ## C1: parallel completeness -/

/-- C1: for every parallel-mode request with K eligible models (credential
present and filter-enabled), `askMultipleAIs` returns exactly K messages,
one per eligible model in order and tagged with that model's identifier,
each being either the backend's successful answer text or the in-band
caught-error text — for every behaviour (any failing subset) of the
backends, captured by quantifying over the oracles. -/
theorem parallel_completeness (st : AIState) (oO oG : Oracle) (q : String)
    (ep : EnabledProviders) (now : Nat) :
    (askMultipleAIs st oO oG q (some ep) now).length = (eligibleProviders st ep).length ∧
    (askMultipleAIs st oO oG q (some ep) now).map ChatMessage.sender
      = (eligibleProviders st ep).map Provider.id ∧
    ∀ m ∈ askMultipleAIs st oO oG q (some ep) now,
      ∃ p ∈ eligibleProviders st ep, m.sender = p.id ∧
        ((∃ ans, providerAttempt st oO oG q p = .ok ans ∧ m.text = ans) ∨
         (∃ e, providerAttempt st oO oG q p = .error e ∧
            m.text = p.name ++ " encountered an error: " ++ e)) := by
  refine ⟨?_, ?_, ?_⟩
  · simp [askMultipleAIs, eligibleProviders]
  · show ((eligibleProviders st ep).map (askProviderMessage st oO oG q now)).map
      ChatMessage.sender = (eligibleProviders st ep).map Provider.id
    rw [List.map_map]
    exact List.map_congr_left fun p _ => askProviderMessage_sender st oO oG q now p
  · intro m hm
    rcases List.mem_map.mp hm with ⟨p, hp, rfl⟩
    exact ⟨p, hp, askProviderMessage_sender st oO oG q now p,
      askProviderMessage_text st oO oG q now p⟩

/-- C1 witness: with both keys present and both providers enabled, the demo
run contains the openai message and the theorem applies to it. -/
theorem parallel_completeness_witness :
    demoParallelMsg ∈ askMultipleAIs demoKeysState demoOracleA demoOracleB "Q"
      (some demoEPBoth) 0 ∧
    ∃ p ∈ eligibleProviders demoKeysState demoEPBoth, demoParallelMsg.sender = p.id ∧
      ((∃ ans, providerAttempt demoKeysState demoOracleA demoOracleB "Q" p = .ok ans ∧
          demoParallelMsg.text = ans) ∨
       (∃ e, providerAttempt demoKeysState demoOracleA demoOracleB "Q" p = .error e ∧
          demoParallelMsg.text = p.name ++ " encountered an error: " ++ e)) :=
  ⟨by decide,
   (parallel_completeness demoKeysState demoOracleA demoOracleB "Q" demoEPBoth 0).2.2
     demoParallelMsg (by decide)⟩

/-! ## C10: the not-configured fallback branch is unreachable -/

/-- C10: every provider passing the eligibility filter of `askMultipleAIs`
has its API key present, so its try-block dispatch reaches the real
backend call (`oO q` resp. `oG q`), never the
`is not configured` placeholder branch; hence every returned entry is a
real backend answer or a caught-error message. -/
theorem not_configured_unreachable (st : AIState) (oO oG : Oracle) (q : String)
    (ep : EnabledProviders) :
    ∀ p ∈ eligibleProviders st ep,
      (p.id = "openai" ∧ st.openaiApiKey.isSome ∧
        providerAttempt st oO oG q p = oO q) ∨
      (p.id = "gemini" ∧ st.geminiApiKey.isSome ∧
        providerAttempt st oO oG q p = oG q) := by
  intro p hp
  rw [eligibleProviders, List.mem_filter] at hp
  obtain ⟨hmem, hinc⟩ := hp
  simp only [getAvailableProviders, List.mem_cons, List.mem_singleton] at hmem
  rcases hmem with rfl | rfl | h
  · left
    have hk : st.openaiApiKey.isSome := by
      have h2 := hinc
      simp [includeProvider] at h2
      exact h2.1
    refine ⟨rfl, hk, ?_⟩
    obtain ⟨k, hk2⟩ := Option.isSome_iff_exists.mp hk
    simp [providerAttempt, askOpenAI, hk, hk2]
  · right
    have hk : st.geminiApiKey.isSome := by
      have h2 := hinc
      simp [includeProvider] at h2
      exact h2.1
    refine ⟨rfl, hk, ?_⟩
    obtain ⟨k, hk2⟩ := Option.isSome_iff_exists.mp hk
    simp [providerAttempt, askGemini, hk, hk2]
  · cases h

/-- C10 witness: the openai provider is eligible in the demo configuration
and its dispatch is the real backend call. -/
theorem not_configured_unreachable_witness :
    demoProviderO ∈ eligibleProviders demoKeysState demoEPBoth ∧
    ((demoProviderO.id = "openai" ∧ demoKeysState.openaiApiKey.isSome ∧
        providerAttempt demoKeysState demoOracleA demoOracleB "Q" demoProviderO
          = demoOracleA "Q") ∨
     (demoProviderO.id = "gemini" ∧ demoKeysState.geminiApiKey.isSome ∧
        providerAttempt demoKeysState demoOracleA demoOracleB "Q" demoProviderO
          = demoOracleB "Q")) :=
  ⟨by decide,
   not_configured_unreachable demoKeysState demoOracleA demoOracleB "Q" demoEPBoth
     demoProviderO (by decide)⟩

/-! ## C4: no-providers short-circuit -/

/-- C4: when zero providers are both credential-enabled and filter-enabled,
the send handler reports the distinct no-providers message, its outcome is
independent of the backend oracles (no backend behaviour is observed —
zero Backend Invoker calls), and the parallel engine itself would issue
zero per-provider tasks. -/
theorem no_providers_short_circuit (st : AIState) (oO oG oO2 oG2 : Oracle) (q : String)
    (settings : EnabledProviders) (chainEnabled showChainComparison : Bool) (now : Nat)
    (h : ((getAvailableProviders st).filter fun p => p.enabled && settings.get p.id).length = 0) :
    handleSendMessageWithText st oO oG q settings false chainEnabled showChainComparison now
      = .noProviders
          "No AI assistants are currently enabled. Please enable at least one AI provider in Settings." ∧
    handleSendMessageWithText st oO oG q settings false chainEnabled showChainComparison now
      = handleSendMessageWithText st oO2 oG2 q settings false chainEnabled showChainComparison now ∧
    askMultipleAIs st oO oG q (some settings) now = [] := by
  have hfilter : (getAvailableProviders st).filter (includeProvider (some settings)) = [] :=
    List.length_eq_zero.mp h
  refine ⟨?_, ?_, ?_⟩
  · simp [handleSendMessageWithText, h]
  · simp [handleSendMessageWithText, h]
  · simp [askMultipleAIs, hfilter]

/-- C4 witness: with no API keys at all, zero providers are eligible and the
handler short-circuits. -/
theorem no_providers_short_circuit_witness :
    ((getAvailableProviders demoNoKeys).filter fun p =>
      p.enabled && demoEPBoth.get p.id).length = 0 ∧
    handleSendMessageWithText demoNoKeys demoOracleA demoOracleB "Q" demoEPBoth
        false false false 0
      = .noProviders
          "No AI assistants are currently enabled. Please enable at least one AI provider in Settings." ∧
    askMultipleAIs demoNoKeys demoOracleA demoOracleB "Q" (some demoEPBoth) 0 = [] :=
  ⟨by decide,
   (no_providers_short_circuit demoNoKeys demoOracleA demoOracleB demoOracleA demoOracleB
     "Q" demoEPBoth false false 0 (by decide)).1,
   (no_providers_short_circuit demoNoKeys demoOracleA demoOracleB demoOracleA demoOracleB
     "Q" demoEPBoth false false 0 (by decide)).2.2⟩

/-! ## C5: store bound invariant -/

/-- Appending trims to the configured maximum. -/
theorem appendTrainingEntry_length (e : TrainingDataEntry) (store : List TrainingDataEntry) :
    (appendTrainingEntry e store).length = min (store.length + 1) MAX_ENTRIES := by
  simp [appendTrainingEntry, List.length_take]
  omega

/-- Length of a sequence of appends (the store never being oversized to
begin with). -/
theorem appendAll_length (es store : List TrainingDataEntry)
    (h : store.length ≤ MAX_ENTRIES) :
    (appendAll es store).length = min (store.length + es.length) MAX_ENTRIES := by
  induction es generalizing store with
  | nil =>
    simp only [appendAll, List.foldl_nil, List.length_nil, Nat.add_zero]
    omega
  | cons e es ih =>
    show (appendAll es (appendTrainingEntry e store)).length = _
    rw [ih (appendTrainingEntry e store) (by rw [appendTrainingEntry_length]; omega),
      appendTrainingEntry_length]
    simp [List.length_cons]
    omega

/-- Content of a sequence of appends to a full store: the new entries
(newest first) followed by the newest remainder of the prior set. -/
theorem appendAll_retained (ks store : List TrainingDataEntry)
    (h1 : store.length = MAX_ENTRIES) (h2 : ks.length ≤ MAX_ENTRIES) :
    appendAll ks store = ks.reverse ++ store.take (MAX_ENTRIES - ks.length) := by
  induction ks generalizing store with
  | nil =>
    show store = [].reverse ++ store.take (MAX_ENTRIES - 0)
    rw [← h1]
    simp [List.take_length]
  | cons k ks ih =>
    show appendAll ks (appendTrainingEntry k store) = _
    have hstep : appendTrainingEntry k store = k :: store.take (MAX_ENTRIES - 1) := by
      show (k :: store).take MAX_ENTRIES = _
      have hM : MAX_ENTRIES = 999 + 1 := rfl
      rw [hM, List.take_succ_cons]
    have hlen : (appendTrainingEntry k store).length = MAX_ENTRIES := by
      rw [appendTrainingEntry_length, h1]
      omega
    have hks : ks.length ≤ MAX_ENTRIES := by
      have := h2
      simp [List.length_cons] at this
      omega
    rw [ih (appendTrainingEntry k store) hlen hks, hstep]
    have hpos : 1 ≤ MAX_ENTRIES - ks.length := by
      have := h2
      simp [List.length_cons] at this
      simp [MAX_ENTRIES] at this ⊢
      omega
    have hsub : MAX_ENTRIES - ks.length = (MAX_ENTRIES - ks.length - 1) + 1 := by omega
    rw [hsub, List.take_succ_cons, List.take_take]
    have hmin : min (MAX_ENTRIES - ks.length - 1) (MAX_ENTRIES - 1)
        = MAX_ENTRIES - (k :: ks).length := by
      simp [List.length_cons]
      omega
    rw [hmin]
    simp

/-- C5: the Training Data Store never exceeds `MAX_ENTRIES = 1000` after an
append; a sequence of appends leaves `min (prior + appended) MAX_ENTRIES`
entries (so appending `MAX_ENTRIES + K` entries to an empty store leaves
exactly `MAX_ENTRIES`); and appending K entries to a full store retains the
K newly appended entries (newest first) followed by the newest
`MAX_ENTRIES - K` entries of the prior set (oldest evicted first). -/
theorem store_bound_invariant :
    (∀ (e : TrainingDataEntry) (store : List TrainingDataEntry),
      (appendTrainingEntry e store).length ≤ MAX_ENTRIES) ∧
    (∀ (es store : List TrainingDataEntry), store.length ≤ MAX_ENTRIES →
      (appendAll es store).length = min (store.length + es.length) MAX_ENTRIES) ∧
    (∀ (ks store : List TrainingDataEntry), store.length = MAX_ENTRIES →
      ks.length ≤ MAX_ENTRIES →
      appendAll ks store = ks.reverse ++ store.take (MAX_ENTRIES - ks.length)) :=
  ⟨fun e store => by rw [appendTrainingEntry_length]; omega,
   appendAll_length,
   appendAll_retained⟩

/-- C5 witness: one append to a full store of 1000 entries keeps exactly the
new entry plus the newest 999 prior entries. -/
theorem store_bound_invariant_witness :
    (List.replicate MAX_ENTRIES demoEntry).length = MAX_ENTRIES ∧
    [demoEntry2].length ≤ MAX_ENTRIES ∧
    appendAll [demoEntry2] (List.replicate MAX_ENTRIES demoEntry)
      = [demoEntry2].reverse
        ++ (List.replicate MAX_ENTRIES demoEntry).take (MAX_ENTRIES - [demoEntry2].length) ∧
    (appendAll [demoEntry2] []).length
      = min (([] : List TrainingDataEntry).length + [demoEntry2].length) MAX_ENTRIES :=
  ⟨by simp, by simp [MAX_ENTRIES],
   store_bound_invariant.2.2 [demoEntry2] (List.replicate MAX_ENTRIES demoEntry)
     (by simp) (by simp [MAX_ENTRIES]),
   store_bound_invariant.2.1 [demoEntry2] [] (by simp)⟩

/-! ## C9: the persisted selected-option reference invariant is broken -/

/-- C9 (code bug): the session selected as `chain_0` does reference a key of
its `chainResponses` map, but `saveComparisonData` omits `chainResponses`
from the persisted entry (and a chain-mode session has an empty `responses`
map), so the persisted entry's `selectedOption` references no key of either
map — the declared invariant is violated for every chain selection. -/
theorem selected_option_reference_dropped :
    (jsGet ((selectOption demoChainSession "chain_0").chainResponses.getD []) "chain_0").isSome
      = true ∧
    (saveComparisonDataEntry (selectOption demoChainSession "chain_0")).selectedOption
      = some "chain_0" ∧
    jsGet (saveComparisonDataEntry (selectOption demoChainSession "chain_0")).responses "chain_0"
      = none ∧
    (saveComparisonDataEntry (selectOption demoChainSession "chain_0")).chainResponses = none := by
  decide

/-! ## C6: export filtering -/

/-- C6: the export contains exactly one projected record per entry with a
non-null `selectedOption`: its length is the number of selected entries,
every exported record comes from a selected entry, every selected entry is
exported, and the wallet context is projected down to balance, asset count
and transaction count (or null without context). -/
theorem export_filtering (data : List TrainingDataEntry) :
    (getTrainingDataForExport data).length
      = data.countP (fun e => e.selectedOption.isSome) ∧
    (∀ r ∈ getTrainingDataForExport data,
      ∃ e ∈ data, e.selectedOption.isSome ∧ r = exportProject e) ∧
    (∀ e ∈ data, e.selectedOption.isSome →
      exportProject e ∈ getTrainingDataForExport data) ∧
    (∀ e : TrainingDataEntry, (exportProject e).context
      = e.walletData.map fun w =>
          { balance := w.balance, assets := w.assets.length,
            transactions := w.transactions.length }) := by
  refine ⟨?_, ?_, ?_, ?_⟩
  · simp [getTrainingDataForExport, List.countP_eq_length_filter]
  · intro r hr
    rw [getTrainingDataForExport] at hr
    rcases List.mem_map.mp hr with ⟨e, he, rfl⟩
    rw [List.mem_filter] at he
    exact ⟨e, he.1, by simpa using he.2, rfl⟩
  · intro e he hsel
    rw [getTrainingDataForExport]
    exact List.mem_map_of_mem exportProject (List.mem_filter.mpr ⟨he, by simpa using hsel⟩)
  · intro e
    cases h : e.walletData <;> simp [exportProject, h]

/-- C6 witness: a one-entry store with a selection exports that entry. -/
theorem export_filtering_witness :
    demoSelEntry ∈ [demoSelEntry] ∧ demoSelEntry.selectedOption.isSome ∧
    exportProject demoSelEntry ∈ getTrainingDataForExport [demoSelEntry] :=
  ⟨by simp, by decide,
   (export_filtering [demoSelEntry]).2.2.1 demoSelEntry (by simp) (by decide)⟩

/-! ## C7: statistics win-count scoping -/

/-- A model win implies a non-null selection, so the `withSelections`
prefilter is redundant for the win count. -/
theorem modelWinPred_imp_hasSelection (modelId : String) (e : TrainingDataEntry) :
    modelWinPred modelId e = true → hasSelection e = true := by
  intro h
  rw [modelWinPred, Bool.and_eq_true] at h
  have h2 := h.2
  rw [beq_iff_eq] at h2
  simp [hasSelection, h2]

/-- A chain win implies a non-null selection. -/
theorem chainWinPred_imp_hasSelection (chainId : String) (e : TrainingDataEntry) :
    chainWinPred chainId e = true → hasSelection e = true := by
  intro h
  rw [chainWinPred, Bool.and_eq_true] at h
  have h2 := h.2
  rw [beq_iff_eq] at h2
  simp [hasSelection, h2]

/-- Two-stage filtering counts exactly the entries of the stronger
predicate. -/
theorem countP_filter_filter {α : Type} (p q : α → Bool) (l : List α)
    (h : ∀ a, q a = true → p a = true) :
    ((l.filter p).filter q).length = l.countP q := by
  rw [List.filter_filter]
  induction l with
  | nil => rfl
  | cons a l ih =>
    rw [List.countP_cons, List.filter_cons]
    cases hq : q a with
    | false =>
      cases hp : p a with
      | false => simpa [hq, hp] using ih
      | true => simpa [hq, hp] using ih
    | true =>
      have hp := h a hq
      simpa [hq, hp] using ih

/-- C7: for every model of the registry, the aggregated win count is the
number of entries selecting that model in parallel or universal mode, and
the participation count is the number of entries whose `responses` map has
that model as a key; for every catalogued chain, the win count is the
number of entries selecting its synthetic `chain_N` id in chain or
universal mode. -/
theorem statistics_win_count_scoping (data : List TrainingDataEntry) :
    (getExtensibleStats data).modelStats.length = AI_MODELS.length ∧
    (getExtensibleStats data).chainStats.length = CHAIN_CONFIGS.length ∧
    (∀ i, i < AI_MODELS.length →
      ((getExtensibleStats data).modelStats.getD i default).modelId
          = (AI_MODELS.getD i default).1 ∧
      ((getExtensibleStats data).modelStats.getD i default).wins
          = data.countP (modelWinPred (AI_MODELS.getD i default).1) ∧
      ((getExtensibleStats data).modelStats.getD i default).totalSessions
          = data.countP (modelParticipates (AI_MODELS.getD i default).1)) ∧
    (∀ i, i < CHAIN_CONFIGS.length →
      ((getExtensibleStats data).chainStats.getD i default).chainConfig
          = CHAIN_CONFIGS.getD i default ∧
      ((getExtensibleStats data).chainStats.getD i default).wins
          = data.countP (chainWinPred ("chain_" ++ toString i))) := by
  refine ⟨?_, ?_, ?_, ?_⟩
  · simp [getExtensibleStats]
  · simp [getExtensibleStats]
  · intro i hi
    have hi2 : i < 2 := by simpa [AI_MODELS] using hi
    interval_cases i
    · refine ⟨rfl, ?_, ?_⟩
      · show ((data.filter hasSelection).filter (modelWinPred "openai")).length
          = data.countP (modelWinPred "openai")
        exact countP_filter_filter hasSelection (modelWinPred "openai") data
          (modelWinPred_imp_hasSelection "openai")
      · show (data.filter (modelParticipates "openai")).length
          = data.countP (modelParticipates "openai")
        simp [List.countP_eq_length_filter]
    · refine ⟨rfl, ?_, ?_⟩
      · show ((data.filter hasSelection).filter (modelWinPred "gemini")).length
          = data.countP (modelWinPred "gemini")
        exact countP_filter_filter hasSelection (modelWinPred "gemini") data
          (modelWinPred_imp_hasSelection "gemini")
      · show (data.filter (modelParticipates "gemini")).length
          = data.countP (modelParticipates "gemini")
        simp [List.countP_eq_length_filter]
  · intro i hi
    have hi2 : i < 2 := by simpa [CHAIN_CONFIGS] using hi
    interval_cases i
    · refine ⟨rfl, ?_⟩
      show ((data.filter hasSelection).filter (chainWinPred "chain_0")).length
        = data.countP (chainWinPred ("chain_" ++ toString 0))
      exact countP_filter_filter hasSelection (chainWinPred "chain_0") data
        (chainWinPred_imp_hasSelection "chain_0")
    · refine ⟨rfl, ?_⟩
      show ((data.filter hasSelection).filter (chainWinPred "chain_1")).length
        = data.countP (chainWinPred ("chain_" ++ toString 1))
      exact countP_filter_filter hasSelection (chainWinPred "chain_1") data
        (chainWinPred_imp_hasSelection "chain_1")

/-- C7 witness: on a one-entry store that selected openai in parallel mode,
the scoped counts are produced for model index 0 and chain index 0. -/
theorem statistics_win_count_scoping_witness :
    (0 < AI_MODELS.length) ∧
    ((getExtensibleStats [demoEntry]).modelStats.getD 0 default).wins
      = [demoEntry].countP (modelWinPred (AI_MODELS.getD 0 default).1) ∧
    (0 < CHAIN_CONFIGS.length) ∧
    ((getExtensibleStats [demoEntry]).chainStats.getD 0 default).wins
      = [demoEntry].countP (chainWinPred ("chain_" ++ toString 0)) :=
  ⟨by decide,
   ((statistics_win_count_scoping [demoEntry]).2.2.1 0 (by decide)).2.1,
   by decide,
   ((statistics_win_count_scoping [demoEntry]).2.2.2 0 (by decide)).2⟩

/-! ## Chain execution lemmas -/

/-- The previous response is literally contained in the enhanced prompt. -/
theorem prev_infix_createChainPrompt (q prev m : String) :
    prev.data <:+: (createChainPrompt q prev m).data :=
  ⟨chainPromptP1.data,
   (chainPromptP2 ++ q ++ chainPromptP3 ++ modelNameOf m ++ chainPromptP4).data,
   by simp [createChainPrompt, String.data_append, List.append_assoc]⟩

/-- The original question is literally contained in the enhanced prompt. -/
theorem question_infix_createChainPrompt (q prev m : String) :
    q.data <:+: (createChainPrompt q prev m).data :=
  ⟨(chainPromptP1 ++ prev ++ chainPromptP2).data,
   (chainPromptP3 ++ modelNameOf m ++ chainPromptP4).data,
   by simp [createChainPrompt, String.data_append, List.append_assoc]⟩

/-- Unfolding equation of `chainGo` on the empty model list. -/
theorem chainGo_nil (st : AIState) (oO oG : Oracle) (q : String) (now : Nat)
    (i : Nat) (last : String) :
    chainGo st oO oG q now [] i last = .ok ([], last) := rfl

/-- Unfolding equation of `chainGo` on a non-empty model list. -/
theorem chainGo_cons (st : AIState) (oO oG : Oracle) (q : String) (now : Nat)
    (m : String) (rest : List String) (i : Nat) (last : String) :
    chainGo st oO oG q now (m :: rest) i last =
      match chainCallModel st oO oG m (chainStepPrompt q i last m) with
      | .error e =>
          .error ("Chain failed at step " ++ toString (i + 1) ++ " (" ++ m ++ "): " ++ e)
      | .ok response =>
        match chainGo st oO oG q now rest (i + 1) response with
        | .error e => .error e
        | .ok (steps, fin) =>
          .ok ({ stepIndex := i, modelId := m,
                 prompt := if i = 0 then q else chainStepPrompt q i last m,
                 response := { modelId := m, content := response, timestamp := now,
                               processingTime := some 0 },
                 enhancedPrompt := if i = 0 then none
                                   else some (chainStepPrompt q i last m) } :: steps,
                fin) := rfl

/-- Full behavioural invariant of the sequential chain loop: as many steps
as models, consecutive step indices from the start index, the first
produced step's prompt is the question at the top level (resp. contains the
fed-in previous response and the question deeper in), consecutive steps are
linked by literal containment of the previous response, and the returned
final text is the last step's response. -/
theorem chainGo_spec (st : AIState) (oO oG : Oracle) (q : String) (now : Nat) :
    ∀ (ms : List String) (i : Nat) (last : String) (ss : List ChainStep) (fin : String),
      chainGo st oO oG q now ms i last = .ok (ss, fin) →
      ss.length = ms.length ∧
      (∀ j, j < ss.length → (ss.getD j default).stepIndex = i + j) ∧
      (0 < ss.length →
        (i = 0 → (ss.getD 0 default).prompt = q) ∧
        (i ≠ 0 → last.data <:+: (ss.getD 0 default).prompt.data ∧
                  q.data <:+: (ss.getD 0 default).prompt.data)) ∧
      (∀ j, j + 1 < ss.length →
        (ss.getD j default).response.content.data <:+: (ss.getD (j+1) default).prompt.data ∧
        q.data <:+: (ss.getD (j+1) default).prompt.data) ∧
      (fin = match ss.getLast? with
             | some s => s.response.content
             | none => last) := by
  intro ms
  induction ms with
  | nil =>
    intro i last ss fin h
    rw [chainGo_nil] at h
    obtain ⟨rfl, rfl⟩ : [] = ss ∧ last = fin := by
      constructor <;> [exact congrArg Prod.fst (Except.ok.inj h);
        exact congrArg Prod.snd (Except.ok.inj h)]
    refine ⟨rfl, ?_, ?_, ?_, rfl⟩
    · intro j hj; cases hj
    · intro h0; cases h0
    · intro j hj; cases hj
  | cons m rest ih =>
    intro i last ss fin h
    rw [chainGo_cons] at h
    cases hc : chainCallModel st oO oG m (chainStepPrompt q i last m) with
    | error e => rw [hc] at h; cases h
    | ok resp =>
      rw [hc] at h
      dsimp only at h
      cases hr : chainGo st oO oG q now rest (i + 1) resp with
      | error e => rw [hr] at h; cases h
      | ok pr =>
        obtain ⟨steps, fin'⟩ := pr
        rw [hr] at h
        dsimp only at h
        obtain ⟨hss, hfin⟩ := Prod.mk.inj (Except.ok.inj h)
        subst hss
        subst hfin
        obtain ⟨ihlen, ihidx, ihfirst, ihlink, ihfin⟩ := ih (i + 1) resp steps fin' hr
        refine ⟨?_, ?_, ?_, ?_, ?_⟩
        · simp [ihlen]
        · intro j hj
          cases j with
          | zero => simp
          | succ j =>
            rw [List.getD_cons_succ]
            have hj2 : j < steps.length := by
              simpa using hj
            rw [ihidx j hj2]
            omega
        · intro _
          constructor
          · intro hi0
            subst hi0
            simp
          · intro hine
            rw [List.getD_cons_zero]
            show last.data <:+: (if i = 0 then q else chainStepPrompt q i last m).data ∧
              q.data <:+: (if i = 0 then q else chainStepPrompt q i last m).data
            rw [if_neg hine, chainStepPrompt]
            by_cases hl : last = ""
            · rw [if_neg (by simp [hl])]
              subst hl
              exact ⟨List.nil_infix, List.infix_rfl⟩
            · rw [if_pos ⟨hine, hl⟩]
              exact ⟨prev_infix_createChainPrompt q last m,
                question_infix_createChainPrompt q last m⟩
        · intro j hj
          cases j with
          | zero =>
            have hpos : 0 < steps.length := by simpa using hj
            rw [List.getD_cons_zero, List.getD_cons_succ]
            show resp.data <:+: (steps.getD 0 default).prompt.data ∧
              q.data <:+: (steps.getD 0 default).prompt.data
            exact (ihfirst hpos).2 (Nat.succ_ne_zero i)
          | succ j =>
            rw [List.getD_cons_succ, List.getD_cons_succ]
            exact ihlink j (by simpa using hj)
        · cases steps with
          | nil => simpa using ihfin
          | cons b bs => rw [List.getLast?_cons_cons]; exact ihfin

/-! ## C3: chain step determinism -/

/-- C3: a fully successful chain run over N models yields exactly N steps
with step indices 0..N-1 in order; step 0's prompt is the verbatim user
question, and for every later step the prompt sent (and recorded) contains
the literal text of the previous step's response and of the original
question. -/
theorem chain_step_determinism (st : AIState) (oO oG : Oracle) (q : String) (now : Nat)
    (cfg : ChainConfig) (r : ChainedResponse)
    (h : executeAIChain st oO oG q now cfg = .ok r) :
    r.chainData.steps.length = cfg.models.length ∧
    (∀ j, j < r.chainData.steps.length →
      (r.chainData.steps.getD j default).stepIndex = j) ∧
    (0 < r.chainData.steps.length → (r.chainData.steps.getD 0 default).prompt = q) ∧
    (∀ j, j + 1 < r.chainData.steps.length →
      (r.chainData.steps.getD j default).response.content.data
        <:+: (r.chainData.steps.getD (j + 1) default).prompt.data ∧
      q.data <:+: (r.chainData.steps.getD (j + 1) default).prompt.data) := by
  rw [executeAIChain] at h
  cases hg : chainGo st oO oG q now cfg.models 0 "" with
  | error e => rw [hg] at h; cases h
  | ok pr =>
    obtain ⟨steps, fin⟩ := pr
    rw [hg] at h
    dsimp only at h
    have hrec := Except.ok.inj h
    subst hrec
    obtain ⟨hlen, hidx, hfirst, hlink, _⟩ :=
      chainGo_spec st oO oG q now cfg.models 0 "" steps fin hg
    refine ⟨hlen, ?_, ?_, hlink⟩
    · intro j hj
      have := hidx j hj
      simpa using this
    · intro h0
      exact (hfirst h0).1 rfl

/-- C3 witness: running the first catalogued chain with both backends
succeeding yields one step per model. -/
theorem chain_step_determinism_witness :
    demoChainRun = .ok demoChainOk ∧
    demoChainOk.chainData.steps.length = (CHAIN_CONFIGS.getD 0 default).models.length :=
  ⟨rfl,
   (chain_step_determinism demoKeysState demoOracleA demoOracleB "Q" 0
     (CHAIN_CONFIGS.getD 0 default) demoChainOk rfl).1⟩

/-! ## C2: chain failure semantics -/

/-- C2: a failing backend call at any step aborts the whole chain with the
chain-failed error (no partial step list is returned, no retry happens);
`executeAllChains` yields exactly one result per catalogued chain, each
tagged with its synthetic chain id, where a rejected chain becomes the
error-shaped result (zero steps, zero processing time, empty responses,
error text) and every successful sibling chain's own result is present
unchanged (up to the session tag). -/
theorem chain_failure_semantics (st : AIState) (oO oG : Oracle) (q : String) (now : Nat) :
    (∀ (ms : List String) (i : Nat) (last m e : String),
      chainCallModel st oO oG m (chainStepPrompt q i last m) = .error e →
      chainGo st oO oG q now (m :: ms) i last
        = .error ("Chain failed at step " ++ toString (i + 1) ++ " (" ++ m ++ "): " ++ e)) ∧
    (executeAllChains st oO oG q now).length = CHAIN_CONFIGS.length ∧
    (∀ idx, idx < CHAIN_CONFIGS.length →
      ((executeAllChains st oO oG q now).getD idx default).finalResponse.sessionId
        = some ("chain_" ++ toString idx) ∧
      (∀ e, executeAIChain st oO oG q now (CHAIN_CONFIGS.getD idx default) = .error e →
        ((executeAllChains st oO oG q now).getD idx default).chainData.steps = [] ∧
        ((executeAllChains st oO oG q now).getD idx default).chainData.totalProcessingTime = 0 ∧
        ((executeAllChains st oO oG q now).getD idx default).responses = [] ∧
        ((executeAllChains st oO oG q now).getD idx default).finalResponse.text
          = "Chain \"" ++ (CHAIN_CONFIGS.getD idx default).name ++ "\" failed: " ++ e) ∧
      (∀ r, executeAIChain st oO oG q now (CHAIN_CONFIGS.getD idx default) = .ok r →
        (executeAllChains st oO oG q now).getD idx default = tagChainSession r idx)) := by
  refine ⟨?_, rfl, ?_⟩
  · intro ms i last m e hc
    rw [chainGo_cons, hc]
  · intro idx hidx
    have h2 : idx < 2 := by simpa [CHAIN_CONFIGS] using hidx
    have hget0 : (executeAllChains st oO oG q now).getD 0 default
        = tagChainSession (runChainSafe st oO oG q now (CHAIN_CONFIGS.getD 0 default)) 0 := rfl
    have hget1 : (executeAllChains st oO oG q now).getD 1 default
        = tagChainSession (runChainSafe st oO oG q now (CHAIN_CONFIGS.getD 1 default)) 1 := rfl
    interval_cases idx
    · refine ⟨rfl, ?_, ?_⟩
      · intro e he
        have hrun : runChainSafe st oO oG q now (CHAIN_CONFIGS.getD 0 default)
            = { finalResponse :=
                  { id := "chain-error-" ++ toString now,
                    text := "Chain \"" ++ (CHAIN_CONFIGS.getD 0 default).name ++ "\" failed: " ++ e,
                    sender := finalModelOf (CHAIN_CONFIGS.getD 0 default), timestamp := now,
                    sessionId := none },
                chainData :=
                  { steps := [], finalModelId := finalModelOf (CHAIN_CONFIGS.getD 0 default),
                    totalProcessingTime := 0 },
                responses := [] } := by
          rw [runChainSafe, he]
        rw [hget0, hrun]
        exact ⟨rfl, rfl, rfl, rfl⟩
      · intro r hrok
        rw [hget0, runChainSafe, hrok]
    · refine ⟨rfl, ?_, ?_⟩
      · intro e he
        have hrun : runChainSafe st oO oG q now (CHAIN_CONFIGS.getD 1 default)
            = { finalResponse :=
                  { id := "chain-error-" ++ toString now,
                    text := "Chain \"" ++ (CHAIN_CONFIGS.getD 1 default).name ++ "\" failed: " ++ e,
                    sender := finalModelOf (CHAIN_CONFIGS.getD 1 default), timestamp := now,
                    sessionId := none },
                chainData :=
                  { steps := [], finalModelId := finalModelOf (CHAIN_CONFIGS.getD 1 default),
                    totalProcessingTime := 0 },
                responses := [] } := by
          rw [runChainSafe, he]
        rw [hget1, hrun]
        exact ⟨rfl, rfl, rfl, rfl⟩
      · intro r hrok
        rw [hget1, runChainSafe, hrok]

/-- C2 witness: with no API keys the first chain fails at step 1 and its
collected result is error-shaped while still being present and tagged. -/
theorem chain_failure_semantics_witness :
    (0 : Nat) < CHAIN_CONFIGS.length ∧
    executeAIChain demoNoKeys demoOracleA demoOracleB "Q" 0 (CHAIN_CONFIGS.getD 0 default)
      = .error "Chain failed at step 1 (openai): Model openai not configured or not available" ∧
    ((executeAllChains demoNoKeys demoOracleA demoOracleB "Q" 0).getD 0 default).chainData.steps
      = [] ∧
    ((executeAllChains demoNoKeys demoOracleA demoOracleB "Q" 0).getD 0
        default).chainData.totalProcessingTime = 0 ∧
    ((executeAllChains demoNoKeys demoOracleA demoOracleB "Q" 0).getD 0 default).responses
      = [] ∧
    ((executeAllChains demoNoKeys demoOracleA demoOracleB "Q" 0).getD 0
        default).finalResponse.text
      = "Chain \"" ++ (CHAIN_CONFIGS.getD 0 default).name ++ "\" failed: "
          ++ "Chain failed at step 1 (openai): Model openai not configured or not available" ∧
    chainGo demoNoKeys demoOracleA demoOracleB "Q" 0 ["openai", "gemini"] 0 ""
      = .error ("Chain failed at step " ++ toString (0 + 1) ++ " (" ++ "openai" ++ "): "
          ++ "Model openai not configured or not available") := by
  have h := chain_failure_semantics demoNoKeys demoOracleA demoOracleB "Q" 0
  have herr : executeAIChain demoNoKeys demoOracleA demoOracleB "Q" 0
      (CHAIN_CONFIGS.getD 0 default)
      = .error "Chain failed at step 1 (openai): Model openai not configured or not available" :=
    rfl
  have hshape := (h.2.2 0 (by decide)).2.1 _ herr
  exact ⟨by decide, herr, hshape.1, hshape.2.1, hshape.2.2.1, hshape.2.2.2,
    h.1 ["gemini"] 0 "" "openai" "Model openai not configured or not available" rfl⟩

/-! ## C8: corrupt-entry behaviour of the aggregator -/

/-- A fallible filter over a list containing a throwing element throws. -/
theorem countFallible_isError {α : Type} (p : α → Except String Bool) (l : List α)
    (h : ∃ x ∈ l, ∃ e, p x = .error e) :
    ∃ e, countFallible p l = .error e := by
  induction l with
  | nil => simp at h
  | cons a l ih =>
    cases hp : p a with
    | error e => exact ⟨e, by simp [countFallible, hp]⟩
    | ok b =>
      have h2 : ∃ x ∈ l, ∃ e, p x = .error e := by
        rcases h with ⟨x, hx, e, hxe⟩
        rcases List.mem_cons.mp hx with rfl | hxl
        · rw [hp] at hxe; cases hxe
        · exact ⟨x, hxl, e, hxe⟩
      rcases ih h2 with ⟨e, he⟩
      exact ⟨e, by simp [countFallible, hp, he]⟩

/-- The model-stats loop throws as soon as a corrupt entry is touched. -/
theorem storedModelStatsGo_error (data ws : List StoredEntry)
    (h : ∃ x ∈ data, x.responses = none) :
    ∃ e, storedModelStatsGo data ws AI_MODELS = .error e := by
  have hcf : ∃ e, countFallible (fun x => storedHasResponse x "openai") data = .error e := by
    apply countFallible_isError
    rcases h with ⟨x, hx, hr⟩
    exact ⟨x, hx, "TypeError: cannot read properties of undefined",
      by simp [storedHasResponse, hr]⟩
  rcases hcf with ⟨e, he⟩
  exact ⟨e, by simp [storedModelStatsGo, AI_MODELS, he]⟩

/-- C8 counterexample: adding one corrupt entry (missing `responses`) to a
store whose single good entry has an openai win makes the aggregation
return the zeroed default stats — the good entry's counts are not
produced, refuting skip-and-continue per-entry tolerance. -/
theorem aggregator_corrupt_entry_counterexample :
    storedGetExtensibleStats [demoGoodStored, demoCorruptStored] = zeroStats ∧
    storedGetExtensibleStats [demoGoodStored] ≠ zeroStats ∧
    (storedGetExtensibleStats [demoGoodStored, demoCorruptStored]).totalSessions = 0 ∧
    (storedGetExtensibleStats [demoGoodStored]).totalSessions = 1 ∧
    ((storedGetExtensibleStats [demoGoodStored]).modelStats.getD 0 default).wins = 1 ∧
    (storedGetExtensibleStats [demoGoodStored, demoCorruptStored]).modelStats = [] := by
  decide

/-- C8 amended: a stored list containing an entry with a missing `responses`
field makes the whole `getExtensibleStats` try block throw, and the catch
returns the zeroed default stats object: no exception escapes, but the
counts of every other entry are discarded rather than the corrupt entry
being skipped. -/
theorem aggregator_corrupt_zeroes (data : List StoredEntry)
    (h : ∃ x ∈ data, x.responses = none) :
    storedGetExtensibleStats data = zeroStats := by
  obtain ⟨e, he⟩ :=
    storedModelStatsGo_error data (data.filter fun x => x.selectedOption.isSome) h
  simp [storedGetExtensibleStats, storedStatsBody, he]

/-- C8 amended witness: the two-entry demo store contains a corrupt entry
and aggregates to the zeroed default. -/
theorem aggregator_corrupt_zeroes_witness :
    (∃ x ∈ [demoGoodStored, demoCorruptStored], x.responses = none) ∧
    storedGetExtensibleStats [demoGoodStored, demoCorruptStored] = zeroStats :=
  ⟨⟨demoCorruptStored, by decide, rfl⟩,
   aggregator_corrupt_zeroes [demoGoodStored, demoCorruptStored]
     ⟨demoCorruptStored, by decide, rfl⟩⟩

end SuiSage








